import Mathlib

/-!
Shallow embedding of `be/src/exec/repeat_node.cpp` (Apache Doris `RepeatNode`,
the GROUPING SETS / ROLLUP / CUBE row-expansion operator), together with
theorems settling the frozen claims about it.

Modelling conventions:
* Slot ids are `Nat`; the sets `_all_slot_ids` and each `_slot_id_set_list[i]`
  are membership lists.
* An output record is a `List (Option (CellVal V))`, one entry per slot of the
  output tuple descriptor, in layout order; `none` is a slot whose null bit is
  set, `some c` is a non-null slot holding the written cell content.
* `CellVal` distinguishes a value produced by `_expr_evals[k]->get_value` from
  a fixed-width grouping indicator written from `_grouping_list`.
* The expression evaluators are a pure function `eval : Nat → ρ → V`, indexed
  by evaluator position (as `_expr_evals[slot_index]` is), over abstract source
  rows `ρ`.
* The arena (`MemPool::allocate`) is out of scope; its single use inside
  `get_repeated_batch` (one allocation, made on the first row of a batch) is
  modelled by a boolean `allocOK`.
-/

namespace RepeatNode

/-- Content of a non-null output slot: either the raw value fetched by an
expression evaluator, or a fixed-width grouping-indicator integer taken from
`_grouping_list`. -/
inductive CellVal (V : Type) where
  | exprVal : V → CellVal V
  | groupingVal : Int → CellVal V
deriving DecidableEq, Repr

/-- One output record: one entry per slot of `_output_tuple_desc`, in layout
order; `none` means the slot's null-indicator bit is set. -/
abbrev Tuple (V : Type) := List (Option (CellVal V))

/-- The configuration of a `RepeatNode`, as copied from the thrift plan node in
the constructor, plus the prepared expression evaluators and the resolved
output tuple layout.  `output_slot_ids` lists `_output_tuple_desc->slots()` by
slot id, in layout order; `num_exprs` is `_expr_evals.size()`. -/
structure Config (V ρ : Type) where
  slot_id_set_list : List (List Nat)
  all_slot_ids : List Nat
  repeat_id_list : List Nat
  grouping_list : List (List Int)
  output_slot_ids : List Nat
  num_exprs : Nat
  eval : Nat → ρ → V

variable {V ρ : Type}

/-- The body of the first slot loop of `RepeatNode::get_repeated_batch` for
value slot position `k` (`slot_index` in the source): if the slot id belongs to
`_all_slot_ids` but not to `_slot_id_set_list[repeat_id_idx]`, the null bit is
set and the evaluator is skipped (`continue`); otherwise the evaluator's value
is fetched and written non-null. -/
def valueCell (cfg : Config V ρ) (ridx : Nat) (row : ρ) (k : Nat) :
    Option (CellVal V) :=
  let sid := cfg.output_slot_ids.getD k 0
  if sid ∈ cfg.all_slot_ids then
    if sid ∈ cfg.slot_id_set_list.getD ridx [] then
      some (CellVal.exprVal (cfg.eval k row))
    else
      none
  else
    some (CellVal.exprVal (cfg.eval k row))

/-- The body of the second slot loop of `RepeatNode::get_repeated_batch` for
indicator position `j`: the slot at layout position `num_exprs + j` is marked
non-null and receives `_grouping_list[j][repeat_id_idx]`. -/
def indicatorCell (cfg : Config V ρ) (ridx : Nat) (j : Nat) :
    Option (CellVal V) :=
  some (CellVal.groupingVal ((cfg.grouping_list.getD j []).getD ridx 0))

/-- Number of iterations of the second slot loop: it runs `slot_index` from
`_expr_evals.size()` up to `_output_tuple_desc->slots().size()`. -/
def numIndicatorSlots (cfg : Config V ρ) : Nat :=
  cfg.output_slot_ids.length - cfg.num_exprs

/-- One output record built by `RepeatNode::get_repeated_batch` for source row
`row` under combination index `ridx`: the value slots (first loop) followed by
the indicator slots (second loop). -/
def makeTuple (cfg : Config V ρ) (ridx : Nat) (row : ρ) : Tuple V :=
  (List.range cfg.num_exprs).map (valueCell cfg ridx row) ++
    (List.range (numIndicatorSlots cfg)).map (indicatorCell cfg ridx)

/-- Model of `RepeatNode::get_repeated_batch`: walks the rows of `child_rows`, building
one output record per source row and committing it to the output batch.  The
arena allocation for the whole batch's records happens on the first row; if it
fails the call returns `Status::InternalError` with no row committed. -/
def get_repeated_batch (cfg : Config V ρ) (allocOK : Bool)
    (child_rows : List ρ) (ridx : Nat) : Except String (List (Tuple V)) :=
  match child_rows with
  | [] => Except.ok []
  | _ :: _ =>
    if allocOK then
      Except.ok (child_rows.map (makeTuple cfg ridx))
    else
      Except.error "Allocate memory for row batch failed."

/-- The cross-call mutable state of the node: `_child_row_batch` (the buffered
child batch, `none` when absent), `_child_eos` (what the child reported on the
last pull), `_repeat_id_idx`, plus `pulls`, the number of `child->get_next`
calls made so far (used to index the child oracle). -/
structure NodeState (ρ : Type) where
  child_row_batch : Option (List ρ)
  child_eos : Bool
  repeat_id_idx : Nat
  pulls : Nat
deriving Repr

/-- Fresh state after `prepare`/`open`: no buffered batch, child not at
end-of-stream, combination index 0. -/
def NodeState.initial : NodeState ρ :=
  { child_row_batch := none, child_eos := false, repeat_id_idx := 0, pulls := 0 }

/-- A child operator modelled as an oracle: the `n`-th `get_next` call on the
child returns the batch of rows and the `eos` flag `child n`.  Child errors are
out of scope (the claims under study do not concern `ChildPropagatedError`). -/
abbrev Child (ρ : Type) := Nat → List ρ × Bool

/-- Tail of `RepeatNode::get_next` once a buffered batch `cb` is present:
fill the output batch via `get_repeated_batch` using `_repeat_id_idx`
(`RETURN_IF_ERROR` leaves the state as is on failure), then increment
`_repeat_id_idx`, and when it reaches `_repeat_id_list.size()` release the
buffered batch and reset the index to 0.  The `eos` out-parameter is not
written on this path, so it keeps its incoming value `eos_in`. -/
def produceFromBuffer (cfg : Config V ρ) (allocOK : Bool) (s : NodeState ρ)
    (cb : List ρ) (eos_in : Bool) :
    Except String (List (Tuple V) × Bool) × NodeState ρ :=
  match get_repeated_batch cfg allocOK cb s.repeat_id_idx with
  | Except.error msg => (Except.error msg, s)
  | Except.ok out =>
    let idx := s.repeat_id_idx + 1
    let s' :=
      if cfg.repeat_id_list.length ≤ idx then
        { s with child_row_batch := none, repeat_id_idx := 0 }
      else
        { s with repeat_id_idx := idx }
    (Except.ok (out, eos_in), s')

/-- Model of `RepeatNode::get_next`.  If no child batch is buffered: report
`eos = true` with an empty batch when the child already signalled
end-of-stream; otherwise pull one batch from the child, and if it has zero
rows release it and report `eos = true`.  Otherwise (a batch is buffered, or
was just pulled) run `get_repeated_batch` for the current combination index
via `produceFromBuffer`.  The result pairs the status (with, on success, the
committed output rows and the final value of the `eos` out-parameter) with the
post-call state; `eos_in` is the caller's incoming value of `*eos`, returned
unchanged on every path that does not assign it. -/
def get_next (cfg : Config V ρ) (allocOK : Bool) (child : Child ρ)
    (s : NodeState ρ) (eos_in : Bool) :
    Except String (List (Tuple V) × Bool) × NodeState ρ :=
  match s.child_row_batch with
  | some cb => produceFromBuffer cfg allocOK s cb eos_in
  | none =>
    if s.child_eos then
      (Except.ok ([], true), s)
    else
      let (batch, ceos) := child s.pulls
      let s1 : NodeState ρ :=
        { s with pulls := s.pulls + 1, child_eos := ceos,
                 child_row_batch := some batch }
      if batch.length = 0 then
        (Except.ok ([], true), { s1 with child_row_batch := none })
      else
        produceFromBuffer cfg allocOK s1 batch eos_in

/-- The error-surfacing behaviour of `RepeatNode::init` followed by
`RepeatNode::prepare`, as the source performs it.  `init` propagates failures
of `ExecNode::init` and `Expr::create` (both external, folded into
`externals_ok`); `prepare` propagates `ExecNode::prepare` and the evaluator
contexts' `prepare` (also folded into `externals_ok`) and returns
`Status::InternalError` when the descriptor table has no tuple descriptor for
`_output_tuple_id`.  No other check is performed: the sizes of
`_slot_id_set_list`, `_repeat_id_list`, `_grouping_list` and the output
layout are never compared here (the source's only size checks are `DCHECK`
debug assertions inside `get_next`/`get_repeated_batch`, which compile to
nothing in release builds and return no error).  The plan `cfg` is taken as an
argument to record that fact: the result does not depend on it. -/
def setup (cfg : Config V ρ) (externals_ok : Bool)
    (desc_tbl : Nat → Option (List Nat)) (output_tuple_id : Nat) :
    Except String Unit :=
  if externals_ok then
    match desc_tbl output_tuple_id with
    | none => Except.error "Failed to get tuple descriptor."
    | some _ =>
      let _ := cfg
      Except.ok ()
  else
    Except.error "external init/prepare failure"

/-- The Grouping Plan consistency conditions named by the spec: `K` (the
number of combinations, `_repeat_id_list.size()`) is positive and consistent
across the keep-set list and every indicator-matrix column, and the output
layout has one slot per value expression plus one per indicator column. -/
def planConsistent (cfg : Config V ρ) : Prop :=
  0 < cfg.repeat_id_list.length ∧
  cfg.slot_id_set_list.length = cfg.repeat_id_list.length ∧
  (∀ col ∈ cfg.grouping_list, col.length = cfg.repeat_id_list.length) ∧
  cfg.output_slot_ids.length = cfg.num_exprs + cfg.grouping_list.length

instance (cfg : Config V ρ) : Decidable (planConsistent cfg) := by
  unfold planConsistent
  exact inferInstance

/-- Drive `n` consecutive `get_next` calls, each given an empty output batch
and an incoming `eos` value of `false` (the caller convention); collects the
per-call results and the final state, stopping early if a call fails. -/
def runCalls (cfg : Config V ρ) (allocOK : Bool) (child : Child ρ) :
    Nat → NodeState ρ → List (List (Tuple V) × Bool) × NodeState ρ
  | 0, s => ([], s)
  | n + 1, s =>
    match get_next cfg allocOK child s false with
    | (Except.ok r, s') =>
      let (rs, sf) := runCalls cfg allocOK child n s'
      (r :: rs, sf)
    | (Except.error _, s') => ([], s')

/-- Concrete plan taken from the spec's worked scenario: value slots `a`, `b`,
`c` carry slot ids 1, 2, 3 (`a` and `b` are the grouping columns, `c` is not),
one indicator slot with id 4; `K = 2`, keep-set 0 = `{a}`, keep-set 1 = `{b}`,
indicator matrix `[[0, 1]]`.  Source rows are integer lists read positionally
by the evaluators. -/
def exCfg : Config Int (List Int) where
  slot_id_set_list := [[1], [2]]
  all_slot_ids := [1, 2]
  repeat_id_list := [0, 1]
  grouping_list := [[0, 1]]
  output_slot_ids := [1, 2, 3, 4]
  num_exprs := 3
  eval := fun k r => r.getD k 0

/-- A successful `get_repeated_batch` call commits exactly one record per
source row, each built by `makeTuple` for the call's combination index. -/
theorem get_repeated_batch_ok_elim (cfg : Config V ρ) (allocOK : Bool)
    (rows : List ρ) (ridx : Nat) (out : List (Tuple V))
    (h : get_repeated_batch cfg allocOK rows ridx = Except.ok out) :
    out = rows.map (makeTuple cfg ridx) := by
  cases rows with
  | nil =>
    simp only [get_repeated_batch, Except.ok.injEq] at h
    simp [← h]
  | cons a l =>
    by_cases hA : allocOK
    · simp only [get_repeated_batch, hA, if_true, Except.ok.injEq] at h
      exact h.symm
    · simp [get_repeated_batch, hA] at h

/-- With the arena available, `get_repeated_batch` succeeds and maps
`makeTuple` over the source rows. -/
theorem get_repeated_batch_allocOK (cfg : Config V ρ) (rows : List ρ)
    (ridx : Nat) :
    get_repeated_batch cfg true rows ridx =
      Except.ok (rows.map (makeTuple cfg ridx)) := by
  cases rows <;> simp [get_repeated_batch]

/-- Value-slot positions of a record: position `k < num_exprs` of `makeTuple`
holds the cell written by the first slot loop. -/
theorem makeTuple_getD_value (cfg : Config V ρ) (ridx : Nat) (row : ρ)
    (k : Nat) (hk : k < cfg.num_exprs) :
    (makeTuple cfg ridx row).getD k none = valueCell cfg ridx row k := by
  rw [makeTuple, List.getD_eq_getElem?_getD, List.getElem?_append]
  simp [hk]

/-- Indicator-slot positions of a record: position `num_exprs + j` of
`makeTuple`, for `j` below the indicator-slot count, holds the cell written by
the second slot loop for indicator column `j`. -/
theorem makeTuple_getD_indicator (cfg : Config V ρ) (ridx : Nat) (row : ρ)
    (j : Nat) (hj : j < numIndicatorSlots cfg) :
    (makeTuple cfg ridx row).getD (cfg.num_exprs + j) none =
      indicatorCell cfg ridx j := by
  rw [makeTuple, List.getD_eq_getElem?_getD, List.getElem?_append_right (by simp)]
  simp [hj]

/-- Row `r` of a successful `get_repeated_batch` output is the record built
from source row `r`. -/
theorem get_repeated_batch_row (cfg : Config V ρ) (allocOK : Bool)
    (rows : List ρ) (ridx : Nat) (out : List (Tuple V))
    (h : get_repeated_batch cfg allocOK rows ridx = Except.ok out)
    (r : Nat) (hr : r < rows.length) :
    out.getD r [] = makeTuple cfg ridx (rows.get ⟨r, hr⟩) := by
  rw [get_repeated_batch_ok_elim cfg allocOK rows ridx out h,
    List.getD_eq_getElem?_getD, List.getElem?_map, List.getElem?_eq_getElem hr]
  rfl

/-- C1: for every input row, combination index, and value slot: a slot in
`GroupingColumnSet` (`_all_slot_ids`) that is not in the combination's keep
set (`_slot_id_set_list[i]`) comes out null; every other value slot — kept
grouping slots and slots outside `GroupingColumnSet` alike — comes out
non-null holding exactly the evaluator's value for that slot and source row,
so slots outside `GroupingColumnSet` are never nulled by this operator. -/
theorem claim_C1_value_slot_semantics (cfg : Config V ρ) (allocOK : Bool)
    (rows : List ρ) (ridx : Nat) (out : List (Tuple V))
    (hout : get_repeated_batch cfg allocOK rows ridx = Except.ok out)
    (r k : Nat) (hr : r < rows.length) (hk : k < cfg.num_exprs) :
    (cfg.output_slot_ids.getD k 0 ∈ cfg.all_slot_ids ∧
        cfg.output_slot_ids.getD k 0 ∉ cfg.slot_id_set_list.getD ridx [] →
      (out.getD r []).getD k none = none) ∧
    ((cfg.output_slot_ids.getD k 0 ∈ cfg.all_slot_ids →
        cfg.output_slot_ids.getD k 0 ∈ cfg.slot_id_set_list.getD ridx []) →
      (out.getD r []).getD k none =
        some (CellVal.exprVal (cfg.eval k (rows.get ⟨r, hr⟩)))) := by
  rw [get_repeated_batch_row cfg allocOK rows ridx out hout r hr,
    makeTuple_getD_value cfg ridx _ k hk]
  constructor
  · rintro ⟨h1, h2⟩
    simp only [List.getD_eq_getElem?_getD] at h1 h2
    simp [valueCell, h1, h2]
  · intro himp
    simp only [List.getD_eq_getElem?_getD] at himp
    by_cases h1 : cfg.output_slot_ids[k]?.getD 0 ∈ cfg.all_slot_ids
    · simp [valueCell, h1, himp h1]
    · simp [valueCell, h1]

/-- The output batch `get_repeated_batch` builds from the spec's worked
scenario row `(a=1, b=2, c=9)` under combination 0. -/
def exOut0 : List (Tuple Int) :=
  [[some (CellVal.exprVal 1), none, some (CellVal.exprVal 9),
    some (CellVal.groupingVal 0)]]

/-- Witness for C1 at the worked scenario: slot `b` (id 2, grouping column
not kept by combination 0) at position 1. -/
theorem claim_C1_witness :
    (exCfg.output_slot_ids.getD 1 0 ∈ exCfg.all_slot_ids ∧
        exCfg.output_slot_ids.getD 1 0 ∉ exCfg.slot_id_set_list.getD 0 [] →
      (exOut0.getD 0 []).getD 1 none = none) ∧
    ((exCfg.output_slot_ids.getD 1 0 ∈ exCfg.all_slot_ids →
        exCfg.output_slot_ids.getD 1 0 ∈ exCfg.slot_id_set_list.getD 0 []) →
      (exOut0.getD 0 []).getD 1 none =
        some (CellVal.exprVal (exCfg.eval 1 [1, 2, 9]))) :=
  claim_C1_value_slot_semantics exCfg true [[1, 2, 9]] 0 exOut0 rfl 0 1
    (by decide) (by decide)

/-- C2: for every input row, combination index `i`, and indicator column `j`
(in `_grouping_list` order, laid out after the value slots), the output slot
at position `num_exprs + j` is non-null and holds the integer
`_grouping_list[j][i]`. -/
theorem claim_C2_indicator_slot_semantics (cfg : Config V ρ) (allocOK : Bool)
    (rows : List ρ) (ridx : Nat) (out : List (Tuple V))
    (hout : get_repeated_batch cfg allocOK rows ridx = Except.ok out)
    (hlayout : cfg.output_slot_ids.length =
      cfg.num_exprs + cfg.grouping_list.length)
    (r j : Nat) (hr : r < rows.length) (hj : j < cfg.grouping_list.length)
    (hri : ridx < (cfg.grouping_list.get ⟨j, hj⟩).length) :
    (out.getD r []).getD (cfg.num_exprs + j) none =
      some (CellVal.groupingVal
        ((cfg.grouping_list.get ⟨j, hj⟩).get ⟨ridx, hri⟩)) := by
  have hj' : j < numIndicatorSlots cfg := by
    unfold numIndicatorSlots
    omega
  rw [get_repeated_batch_row cfg allocOK rows ridx out hout r hr,
    makeTuple_getD_indicator cfg ridx _ j hj']
  simp only [indicatorCell, List.getD_eq_getElem?_getD,
    List.getElem?_eq_getElem hj]
  rw [List.getElem?_eq_getElem (by simpa using hri)]
  rfl

/-- Witness for C2 at the worked scenario: the single indicator column
(`j = 0`) under combination 0 holds `_grouping_list[0][0] = 0`. -/
theorem claim_C2_witness :
    (exOut0.getD 0 []).getD (exCfg.num_exprs + 0) none =
      some (CellVal.groupingVal
        ((exCfg.grouping_list.get ⟨0, by decide⟩).get ⟨0, by decide⟩)) :=
  claim_C2_indicator_slot_semantics exCfg true [[1, 2, 9]] 0 exOut0 rfl
    (by decide) 0 0 (by decide) (by decide) (by decide)

/-- C9: when the arena allocation for the output records fails, the call that
hit it returns the allocation error: `get_repeated_batch` commits no row
(its error carries no batch), and the enclosing `get_next` propagates the
error leaving the node state exactly as it was — the buffered input batch is
retained and the combination index is not advanced. -/
theorem claim_C9_alloc_failure_no_partial_batch (cfg : Config V ρ)
    (child : Child ρ) (s : NodeState ρ) (cb : List ρ) (eos_in : Bool)
    (hbuf : s.child_row_batch = some cb) (hne : cb ≠ []) :
    get_repeated_batch cfg false cb s.repeat_id_idx =
      Except.error "Allocate memory for row batch failed." ∧
    get_next cfg false child s eos_in =
      (Except.error "Allocate memory for row batch failed.", s) := by
  have herr : get_repeated_batch cfg false cb s.repeat_id_idx =
      Except.error "Allocate memory for row batch failed." := by
    cases cb with
    | nil => exact absurd rfl hne
    | cons a l => simp [get_repeated_batch]
  refine ⟨herr, ?_⟩
  simp [get_next, hbuf, produceFromBuffer, herr]

/-- A node state holding the worked scenario's row as its buffered batch,
mid-replay. -/
def sBuf : NodeState (List Int) where
  child_row_batch := some [[1, 2, 9]]
  child_eos := false
  repeat_id_idx := 0
  pulls := 1

/-- A child oracle that always reports end-of-stream with no rows. -/
def childDone : Child (List Int) := fun _ => ([], true)

/-- Witness for C9 at the worked scenario with the arena unavailable. -/
theorem claim_C9_witness :
    get_repeated_batch exCfg false [[1, 2, 9]] sBuf.repeat_id_idx =
      Except.error "Allocate memory for row batch failed." ∧
    get_next exCfg false childDone sBuf false =
      (Except.error "Allocate memory for row batch failed.", sBuf) :=
  claim_C9_alloc_failure_no_partial_batch exCfg childDone sBuf [[1, 2, 9]]
    false rfl (by decide)

/-- C5: a `get_next` call with no buffered input whose child pull returns a
zero-row batch reports `eos = true` with success and an empty output batch,
and releases the just-pulled (empty) batch — whatever end-of-stream flag the
child attached to that pull. -/
theorem claim_C5_empty_pull_reports_eos (cfg : Config V ρ) (allocOK : Bool)
    (child : Child ρ) (s : NodeState ρ) (eos_in : Bool) (ceos : Bool)
    (hbuf : s.child_row_batch = none) (heos : s.child_eos = false)
    (hpull : child s.pulls = ([], ceos)) :
    get_next cfg allocOK child s eos_in =
      (Except.ok ([], true),
        { s with pulls := s.pulls + 1, child_eos := ceos,
                 child_row_batch := none }) := by
  simp [get_next, hbuf, heos, hpull]

/-- A child oracle whose first pull yields an empty batch without signalling
end-of-stream, and whose later pulls yield the worked scenario's row. -/
def childEmptyThenData : Child (List Int) :=
  fun n => if n = 0 then ([], false) else ([[1, 2, 9]], false)

/-- Witness for C5: the empty first pull of `childEmptyThenData`, made while
the child has more data, still reports `eos = true`. -/
theorem claim_C5_witness :
    get_next exCfg true childEmptyThenData
        (NodeState.initial : NodeState (List Int)) false =
      (Except.ok ([], true),
        { child_row_batch := none, child_eos := false,
          repeat_id_idx := 0, pulls := 1 }) :=
  claim_C5_empty_pull_reports_eos exCfg true childEmptyThenData
    NodeState.initial false false rfl rfl rfl

/-- A `get_next` call on a buffered batch with the arena available: it fills
the output with one record per buffered row for the current combination
index, leaves the `eos` out-parameter untouched, and advances the index —
releasing the buffer when the index reaches `_repeat_id_list.size()`. -/
theorem get_next_buffered_ok (cfg : Config V ρ) (child : Child ρ)
    (s : NodeState ρ) (cb : List ρ) (eos_in : Bool)
    (hbuf : s.child_row_batch = some cb) :
    get_next cfg true child s eos_in =
      (Except.ok (cb.map (makeTuple cfg s.repeat_id_idx), eos_in),
        if cfg.repeat_id_list.length ≤ s.repeat_id_idx + 1 then
          { s with child_row_batch := none, repeat_id_idx := 0 }
        else
          { s with repeat_id_idx := s.repeat_id_idx + 1 }) := by
  simp [get_next, hbuf, produceFromBuffer, get_repeated_batch_allocOK]

/-- Any successful `get_next` call made while a batch is buffered commits
exactly as many output rows as the buffered batch has. -/
theorem get_next_buffered_length (cfg : Config V ρ) (allocOK : Bool)
    (child : Child ρ) (s : NodeState ρ) (cb : List ρ) (eos_in : Bool)
    (out : List (Tuple V)) (eos_out : Bool) (s' : NodeState ρ)
    (hbuf : s.child_row_batch = some cb)
    (h : get_next cfg allocOK child s eos_in = (Except.ok (out, eos_out), s')) :
    out.length = cb.length := by
  simp only [get_next, hbuf] at h
  unfold produceFromBuffer at h
  cases hrb : get_repeated_batch cfg allocOK cb s.repeat_id_idx with
  | error msg => rw [hrb] at h; simp at h
  | ok out' =>
    rw [hrb] at h
    simp only [Prod.mk.injEq, Except.ok.injEq] at h
    obtain ⟨⟨hout, -⟩, -⟩ := h
    rw [← hout, get_repeated_batch_ok_elim cfg allocOK cb s.repeat_id_idx out' hrb]
    simp

/-- Replaying a buffered batch for the remaining `n` combinations (the index
plus `n` reaching `K`) yields `n` output batches totalling `n` times the
buffered row count. -/
theorem runCalls_replay_sum (cfg : Config V ρ) (child : Child ρ) :
    ∀ (n : Nat) (s : NodeState ρ) (cb : List ρ),
      s.child_row_batch = some cb →
      s.repeat_id_idx + n = cfg.repeat_id_list.length →
      ((runCalls cfg true child n s).1.map (fun r => r.1.length)).sum =
        cb.length * n := by
  intro n
  induction n with
  | zero =>
    intro s cb hbuf hidx
    simp [runCalls]
  | succ m ih =>
    intro s cb hbuf hidx
    simp only [runCalls]
    rw [get_next_buffered_ok cfg child s cb false hbuf]
    by_cases hK : cfg.repeat_id_list.length ≤ s.repeat_id_idx + 1
    · have hm : m = 0 := by omega
      subst hm
      simp [runCalls, hK]
    · have hrec := ih { s with repeat_id_idx := s.repeat_id_idx + 1 } cb hbuf
        (by simp; omega)
      simp only [if_neg hK]
      simp [hrec, Nat.mul_succ, Nat.add_comm]

/-- C3: a successful `get_next` call made while a batch is buffered produces
one output batch whose row count equals the buffered batch's row count; and
starting a fresh replay (index 0) of a buffered batch of `R` rows, the `K`
calls that consume it emit `K` batches totalling `R * K` rows. -/
theorem claim_C3_one_batch_per_pair_and_total (cfg : Config V ρ)
    (child : Child ρ) :
    (∀ (allocOK : Bool) (s : NodeState ρ) (cb : List ρ) (eos_in : Bool)
        (out : List (Tuple V)) (eos_out : Bool) (s' : NodeState ρ),
      s.child_row_batch = some cb →
      get_next cfg allocOK child s eos_in = (Except.ok (out, eos_out), s') →
      out.length = cb.length) ∧
    (∀ (s : NodeState ρ) (cb : List ρ),
      s.child_row_batch = some cb →
      s.repeat_id_idx = 0 →
      ((runCalls cfg true child cfg.repeat_id_list.length s).1.length =
          cfg.repeat_id_list.length ∧
        ((runCalls cfg true child cfg.repeat_id_list.length s).1.map
            (fun r => r.1.length)).sum =
          cb.length * cfg.repeat_id_list.length)) := by
  constructor
  · intro allocOK s cb eos_in out eos_out s' hbuf h
    exact get_next_buffered_length cfg allocOK child s cb eos_in out eos_out
      s' hbuf h
  · intro s cb hbuf hidx
    have hsum := runCalls_replay_sum cfg child cfg.repeat_id_list.length s cb
      hbuf (by omega)
    refine ⟨?_, hsum⟩
    have hlen : ∀ (n : Nat) (t : NodeState ρ) (tb : List ρ),
        t.child_row_batch = some tb →
        t.repeat_id_idx + n = cfg.repeat_id_list.length →
        (runCalls cfg true child n t).1.length = n := by
      intro n
      induction n with
      | zero => intro t tb hb hi; simp [runCalls]
      | succ m ihn =>
        intro t tb hb hi
        simp only [runCalls]
        rw [get_next_buffered_ok cfg child t tb false hb]
        by_cases hK : cfg.repeat_id_list.length ≤ t.repeat_id_idx + 1
        · have hm : m = 0 := by omega
          subst hm
          simp [runCalls, hK]
        · have := ihn { t with repeat_id_idx := t.repeat_id_idx + 1 } tb hb
            (by simp; omega)
          simp only [if_neg hK]
          simp [this]
    exact hlen cfg.repeat_id_list.length s cb hbuf (by omega)

/-- Witness for C3 at the worked scenario: the buffered single-row batch is
consumed by `K = 2` calls emitting 2 batches of 1 row each. -/
theorem claim_C3_witness :
    (get_next exCfg true childDone sBuf false =
        (Except.ok (exOut0, false),
          { child_row_batch := some [[1, 2, 9]], child_eos := false,
            repeat_id_idx := 1, pulls := 1 }) →
      exOut0.length = ([[1, 2, 9]] : List (List Int)).length) ∧
    ((runCalls exCfg true childDone exCfg.repeat_id_list.length sBuf).1.length =
        exCfg.repeat_id_list.length ∧
      ((runCalls exCfg true childDone exCfg.repeat_id_list.length sBuf).1.map
          (fun r => r.1.length)).sum =
        ([[1, 2, 9]] : List (List Int)).length * exCfg.repeat_id_list.length) :=
  ⟨fun h =>
    (claim_C3_one_batch_per_pair_and_total exCfg childDone).1 true sBuf
      [[1, 2, 9]] false exOut0 false _ rfl h,
    (claim_C3_one_batch_per_pair_and_total exCfg childDone).2 sBuf [[1, 2, 9]]
      rfl rfl⟩

/-- The cross-call invariant of the expander: the combination index is below
`K` (`_repeat_id_list.size()`), and a nonzero index only occurs while a child
batch is buffered. -/
def StateInv (K : Nat) (s : NodeState ρ) : Prop :=
  s.repeat_id_idx < K ∧ (s.repeat_id_idx ≠ 0 → s.child_row_batch ≠ none)

/-- C4: a successful buffered call advances the combination index by one,
keeping the buffer, and the call that brings it to `K` releases the buffer
and resets the index to 0; a call with no buffer pulls the child exactly once
unless the child already signalled end-of-stream (in which case the state is
untouched); and every call preserves the invariant that the index stays in
`[0, K)` with a buffer present whenever it is nonzero. -/
theorem claim_C4_index_advances_and_cycles (cfg : Config V ρ)
    (allocOK : Bool) (child : Child ρ)
    (hK : 0 < cfg.repeat_id_list.length) :
    (∀ (s : NodeState ρ) (cb : List ρ) (eos_in : Bool) (out : List (Tuple V))
        (eos_out : Bool) (s' : NodeState ρ),
      s.child_row_batch = some cb →
      get_next cfg allocOK child s eos_in = (Except.ok (out, eos_out), s') →
      (s.repeat_id_idx + 1 < cfg.repeat_id_list.length →
        s'.repeat_id_idx = s.repeat_id_idx + 1 ∧
          s'.child_row_batch = some cb) ∧
      (s.repeat_id_idx + 1 = cfg.repeat_id_list.length →
        s'.repeat_id_idx = 0 ∧ s'.child_row_batch = none)) ∧
    (∀ (s : NodeState ρ) (eos_in : Bool),
      s.child_row_batch = none → s.child_eos = false →
      (get_next cfg allocOK child s eos_in).2.pulls = s.pulls + 1) ∧
    (∀ (s : NodeState ρ) (eos_in : Bool),
      s.child_row_batch = none → s.child_eos = true →
      (get_next cfg allocOK child s eos_in).2 = s) ∧
    (∀ (s : NodeState ρ) (eos_in : Bool),
      StateInv cfg.repeat_id_list.length s →
      StateInv cfg.repeat_id_list.length
        (get_next cfg allocOK child s eos_in).2) := by
  refine ⟨?_, ?_, ?_, ?_⟩
  · intro s cb eos_in out eos_out s' hbuf h
    simp only [get_next, hbuf] at h
    unfold produceFromBuffer at h
    cases hrb : get_repeated_batch cfg allocOK cb s.repeat_id_idx with
    | error msg => rw [hrb] at h; simp at h
    | ok out' =>
      rw [hrb] at h
      simp only [Prod.mk.injEq, Except.ok.injEq] at h
      obtain ⟨-, hs'⟩ := h
      constructor
      · intro hlt
        rw [← hs', if_neg (by omega)]
        exact ⟨rfl, hbuf⟩
      · intro heq
        rw [← hs', if_pos (by omega)]
        exact ⟨rfl, rfl⟩
  · intro s eos_in hbuf hce
    simp only [get_next, hbuf, hce, Bool.false_eq_true, if_false]
    rcases hch : child s.pulls with ⟨batch, ceos⟩
    by_cases hlen : batch.length = 0
    · simp [hch, hlen]
    · simp only [hch, if_neg hlen]
      unfold produceFromBuffer
      cases hrb : get_repeated_batch cfg allocOK batch s.repeat_id_idx with
      | error msg => simp
      | ok out' =>
        by_cases hKle : cfg.repeat_id_list.length ≤ s.repeat_id_idx + 1 <;>
          simp [hKle]
  · intro s eos_in hbuf hce
    simp [get_next, hbuf, hce]
  · intro s eos_in hinv
    obtain ⟨h1, h2⟩ := hinv
    cases hbuf : s.child_row_batch with
    | some cb =>
      simp only [get_next, hbuf]
      unfold produceFromBuffer
      cases hrb : get_repeated_batch cfg allocOK cb s.repeat_id_idx with
      | error msg => exact ⟨h1, fun h => by simp [hbuf]⟩
      | ok out'  =>
        by_cases hKle : cfg.repeat_id_list.length ≤ s.repeat_id_idx + 1
        · simp only [if_pos hKle]
          exact ⟨hK, fun h => absurd rfl h⟩
        · simp only [if_neg hKle]
          exact ⟨by simpa using Nat.lt_of_not_le hKle,
            fun _ => by simp [hbuf]⟩
    | none =>
      cases hce : s.child_eos with
      | true =>
        simp only [get_next, hbuf, hce, if_true]
        exact ⟨h1, h2⟩
      | false =>
        simp only [get_next, hbuf, hce, Bool.false_eq_true, if_false]
        rcases hch : child s.pulls with ⟨batch, ceos⟩
        by_cases hlen : batch.length = 0
        · simp only [hch, if_pos hlen]
          exact ⟨h1, fun h => absurd hbuf (h2 h)⟩
        · simp only [hch, if_neg hlen]
          unfold produceFromBuffer
          cases hrb : get_repeated_batch cfg allocOK batch s.repeat_id_idx with
          | error msg => exact ⟨h1, fun _ => by simp⟩
          | ok out' =>
            by_cases hKle : cfg.repeat_id_list.length ≤ s.repeat_id_idx + 1
            · simp only [if_pos hKle]
              exact ⟨hK, fun h => absurd rfl h⟩
            · simp only [if_neg hKle]
              exact ⟨by simpa using Nat.lt_of_not_le hKle, fun _ => by simp⟩

/-- Witness for C4 at the worked scenario: the first buffered call advances
the index from 0 to 1 keeping the buffer; the pull-counting, no-pull-at-eos
and invariant-preservation conjuncts applied at concrete states. -/
theorem claim_C4_witness :
    ((sBuf.repeat_id_idx + 1 < exCfg.repeat_id_list.length →
        ({ child_row_batch := some [[1, 2, 9]], child_eos := false,
           repeat_id_idx := 1, pulls := 1 } : NodeState (List Int)).repeat_id_idx =
            sBuf.repeat_id_idx + 1 ∧
          ({ child_row_batch := some [[1, 2, 9]], child_eos := false,
             repeat_id_idx := 1, pulls := 1 } : NodeState (List Int)).child_row_batch =
            some [[1, 2, 9]]) ∧
      (sBuf.repeat_id_idx + 1 = exCfg.repeat_id_list.length →
        ({ child_row_batch := some [[1, 2, 9]], child_eos := false,
           repeat_id_idx := 1, pulls := 1 } : NodeState (List Int)).repeat_id_idx = 0 ∧
          ({ child_row_batch := some [[1, 2, 9]], child_eos := false,
             repeat_id_idx := 1, pulls := 1 } : NodeState (List Int)).child_row_batch =
            none)) ∧
    StateInv exCfg.repeat_id_list.length
      (get_next exCfg true childDone sBuf false).2 :=
  ⟨(claim_C4_index_advances_and_cycles exCfg true childDone (by decide)).1
      sBuf [[1, 2, 9]] false exOut0 false _ rfl
      (get_next_buffered_ok exCfg childDone sBuf [[1, 2, 9]] false rfl),
    (claim_C4_index_advances_and_cycles exCfg true childDone
        (by decide)).2.2.2 sBuf false ⟨by decide, fun h => by simp [sBuf]⟩⟩

/-- Counterexample to C6 as stated: with the worked scenario's plan and a
child whose first pull yields an empty batch without end-of-stream and whose
second pull yields a row, the first call reports `eos = true`, yet the second
call pulls the child again and reports `eos = false` with a non-empty output
batch — the EOS report was not terminal. -/
theorem claim_C6_counterexample :
    ((runCalls exCfg true childEmptyThenData 2
        (NodeState.initial : NodeState (List Int))).1.map (fun r => r.2)) =
      [true, false] ∧
    ((runCalls exCfg true childEmptyThenData 2
        (NodeState.initial : NodeState (List Int))).1.map
        (fun r => r.1.length)) = [0, 1] ∧
    (runCalls exCfg true childEmptyThenData 2
        (NodeState.initial : NodeState (List Int))).2.pulls = 2 := by
  refine ⟨rfl, rfl, rfl⟩

/-- C6 as amended: the EOS state is terminal exactly when the child has
signalled end-of-stream — from any state with no buffered batch and
`_child_eos` set, every subsequent call reports `eos = true` with an empty
output batch and leaves the state (in particular the pull count) untouched. -/
theorem claim_C6_eos_terminal_when_child_done (cfg : Config V ρ)
    (allocOK : Bool) (child : Child ρ) (s : NodeState ρ)
    (hbuf : s.child_row_batch = none) (heos : s.child_eos = true) (n : Nat) :
    runCalls cfg allocOK child n s = (List.replicate n ([], true), s) := by
  induction n with
  | zero => simp [runCalls]
  | succ m ih =>
    simp only [runCalls]
    simp [get_next, hbuf, heos, ih, List.replicate_succ]

/-- A drained node state: no buffer, the child has signalled end-of-stream. -/
def sEos : NodeState (List Int) where
  child_row_batch := none
  child_eos := true
  repeat_id_idx := 0
  pulls := 5

/-- Witness for the amended C6: three further calls after end-of-stream all
report `eos = true` with empty batches and do not move the state. -/
theorem claim_C6_witness :
    runCalls exCfg true childDone 3 sEos =
      (List.replicate 3 ([], true), sEos) :=
  claim_C6_eos_terminal_when_child_done exCfg true childDone sEos rfl rfl 3

/-- A successful `produceFromBuffer` hands back the `eos` out-parameter with
its incoming value: the fill path of `get_next` never writes it. -/
theorem produceFromBuffer_keeps_eos (cfg : Config V ρ) (allocOK : Bool)
    (s : NodeState ρ) (cb : List ρ) (eos_in : Bool) (out : List (Tuple V))
    (eos_out : Bool) (s' : NodeState ρ)
    (h : produceFromBuffer cfg allocOK s cb eos_in =
      (Except.ok (out, eos_out), s')) :
    eos_out = eos_in := by
  unfold produceFromBuffer at h
  cases hrb : get_repeated_batch cfg allocOK cb s.repeat_id_idx with
  | error msg => rw [hrb] at h; simp at h
  | ok out' =>
    rw [hrb] at h
    simp only [Prod.mk.injEq, Except.ok.injEq] at h
    exact h.1.2.symm

/-- Counterexample to C8 as stated: a successful fill-path call made with an
incoming `eos` value of `true` returns with `eos` still `true` and a
non-empty output batch — the source never assigns `*eos` on the fill path,
so the call does not "return with the eos out-parameter equal to false". -/
theorem claim_C8_counterexample :
    (get_next exCfg true childDone sBuf true).1 =
      Except.ok (exOut0, true) ∧ exOut0 ≠ [] := by
  exact ⟨rfl, by decide⟩

/-- C8 as amended: the fill path leaves the `eos` out-parameter at its
incoming value (rather than assigning `false`); consequently, for a caller
that passes `eos = false` — the framework convention — every successful call
either fills the batch with `eos = false`, or reports `eos = true` with an
empty batch. -/
theorem claim_C8_fill_keeps_incoming_eos (cfg : Config V ρ)
    (allocOK : Bool) (child : Child ρ) :
    (∀ (s : NodeState ρ) (cb : List ρ) (eos_in : Bool)
        (out : List (Tuple V)) (eos_out : Bool) (s' : NodeState ρ),
      s.child_row_batch = some cb →
      get_next cfg allocOK child s eos_in = (Except.ok (out, eos_out), s') →
      eos_out = eos_in) ∧
    (∀ (s : NodeState ρ) (out : List (Tuple V)) (eos_out : Bool)
        (s' : NodeState ρ),
      get_next cfg allocOK child s false = (Except.ok (out, eos_out), s') →
      eos_out = true → out = []) := by
  constructor
  · intro s cb eos_in out eos_out s' hbuf h
    simp only [get_next, hbuf] at h
    exact produceFromBuffer_keeps_eos cfg allocOK s cb eos_in out eos_out s' h
  · intro s out eos_out s' h htrue
    cases hbuf : s.child_row_batch with
    | some cb =>
      simp only [get_next, hbuf] at h
      have := produceFromBuffer_keeps_eos cfg allocOK s cb false out eos_out
        s' h
      rw [htrue] at this
      exact absurd this (by simp)
    | none =>
      simp only [get_next, hbuf] at h
      by_cases hce : s.child_eos
      · simp only [hce, if_true, Prod.mk.injEq, Except.ok.injEq] at h
        exact h.1.1.symm
      · simp only [hce, Bool.false_eq_true, if_false] at h
        rcases hch : child s.pulls with ⟨batch, ceos⟩
        rw [hch] at h
        by_cases hlen : batch.length = 0
        · simp only [if_pos hlen, Prod.mk.injEq, Except.ok.injEq] at h
          exact h.1.1.symm
        · simp only [if_neg hlen] at h
          have := produceFromBuffer_keeps_eos cfg allocOK _ batch false out
            eos_out s' h
          rw [htrue] at this
          exact absurd this (by simp)

/-- Witness for the amended C8 at the worked scenario: the buffered call made
with incoming `eos = false` returns `eos = false`, and the empty-with-true
alternative applied at the drained state. -/
theorem claim_C8_witness :
    ((false : Bool) = false) ∧ (([] : List (Tuple Int)) = []) :=
  ⟨(claim_C8_fill_keeps_incoming_eos exCfg true childDone).1 sBuf
      [[1, 2, 9]] false exOut0 false _ rfl
      (get_next_buffered_ok exCfg childDone sBuf [[1, 2, 9]] false rfl),
    (claim_C8_fill_keeps_incoming_eos exCfg true childDone).2 sEos [] true
      sEos rfl rfl⟩

/-- A Grouping Plan whose sizes are inconsistent in every way the spec's
validation names: one keep set but two combinations, an indicator column of
length 1 instead of `K = 2`, and an output layout of 3 slots where the value
slots plus the indicator column need 4. -/
def cfgBad : Config Int (List Int) where
  slot_id_set_list := [[1]]
  all_slot_ids := [1, 2]
  repeat_id_list := [0, 1]
  grouping_list := [[0]]
  output_slot_ids := [1, 2, 3]
  num_exprs := 3
  eval := fun k r => r.getD k 0

/-- A descriptor table resolving tuple id 7 to a four-slot layout. -/
def exDescTbl : Nat → Option (List Nat) :=
  fun t => if t = 7 then some [1, 2, 3, 4] else none

/-- Counterexample to C7 as stated: `cfgBad`'s Grouping Plan sizes are
inconsistent, yet `init`/`prepare` succeed — the source checks only that the
output tuple descriptor resolves (plus external failures), never the plan
sizes, so the operator runs with the inconsistent plan. -/
theorem claim_C7_counterexample :
    ¬ planConsistent cfgBad ∧ setup cfgBad true exDescTbl 7 = Except.ok () :=
  ⟨by decide, rfl⟩

/-- C7 as amended: setup surfaces exactly two failure kinds — a propagated
external `init`/`prepare` failure and a missing output tuple descriptor.
It succeeds whenever those hold, irrespective of any Grouping Plan size
inconsistency, which is never validated at setup (the sizes are only debug
assertions later). -/
theorem claim_C7_setup_checks_only_descriptor (cfg : Config V ρ)
    (externals_ok : Bool) (desc_tbl : Nat → Option (List Nat)) (tid : Nat) :
    setup cfg externals_ok desc_tbl tid = Except.ok () ↔
      externals_ok = true ∧ (desc_tbl tid).isSome = true := by
  cases externals_ok with
  | false => simp [setup]
  | true =>
    cases htbl : desc_tbl tid with
    | none => simp [setup, htbl]
    | some slots => simp [setup, htbl]

/-- Witness for the amended C7: setup of the worked plan over `exDescTbl`
succeeds, and the characterization applied at the concrete inputs. -/
theorem claim_C7_witness :
    setup exCfg true exDescTbl 7 = Except.ok () ↔
      true = true ∧ ((exDescTbl 7).isSome = true) :=
  claim_C7_setup_checks_only_descriptor exCfg true exDescTbl 7

/-- C10: for a slot nulled under combination `i` the evaluator is skipped by
the `continue` in the first slot loop, so the record built for a source row
cannot depend on what the evaluator would have produced there: two source
rows whose evaluator values agree on every value slot that is *not* nulled
under `i` yield identical output records. -/
theorem claim_C10_nulled_slots_noninterference (cfg : Config V ρ)
    (ridx : Nat) (r1 r2 : ρ)
    (hagree : ∀ k, k < cfg.num_exprs →
      (cfg.output_slot_ids.getD k 0 ∈ cfg.all_slot_ids →
        cfg.output_slot_ids.getD k 0 ∈ cfg.slot_id_set_list.getD ridx []) →
      cfg.eval k r1 = cfg.eval k r2) :
    makeTuple cfg ridx r1 = makeTuple cfg ridx r2 := by
  unfold makeTuple
  congr 1
  apply List.map_congr_left
  intro k hk
  rw [List.mem_range] at hk
  have hag := hagree k hk
  simp only [List.getD_eq_getElem?_getD] at hag
  unfold valueCell
  by_cases h1 : cfg.output_slot_ids[k]?.getD 0 ∈ cfg.all_slot_ids
  · by_cases h2 : cfg.output_slot_ids[k]?.getD 0 ∈
        cfg.slot_id_set_list[ridx]?.getD []
    · simp [h1, h2, hag (fun _ => h2)]
    · simp [h1, h2]
  · simp [h1, hag (fun hmem => absurd hmem h1)]

/-- Witness for C10 at the worked scenario, combination 0: rows
`(a=1, b=2, c=9)` and `(a=1, b=777, c=9)` differ only in `b`, which
combination 0 nulls, and produce identical records. -/
theorem claim_C10_witness :
    makeTuple exCfg 0 [1, 2, 9] = makeTuple exCfg 0 [1, 777, 9] :=
  claim_C10_nulled_slots_noninterference exCfg 0 [1, 2, 9] [1, 777, 9]
    (by decide)

end RepeatNode
